import Mathlib

/-!
Verification of the Policy Sentinel audit pipeline against its specification.

Shallow embedding of the core code:
  - src/app/schemas.py          (pydantic data model)
  - src/app/services/audit.py   (rule extraction, per-cell auditing, full audit)
  - src/app/services/dashboard.py (compliance aggregation)
  - src/app/main.py             (streaming audit event generator, lines 384-460)

Modelling conventions:
  - Python floats are modelled as exact rationals.
  - External collaborators (the Chroma retrieval service, the Groq judgment
    model, and the JSON decoding of untrusted model output) are parameters:
    a call that may raise is a function into `Except String _`, with
    `Except.error` standing for a raised exception whose message is the
    carried string.
  - pydantic construction of `Evidence` and `AuditItem` values is modelled
    explicitly, because `schemas.py` restricts `Evidence.status` to the
    literals "PASS" and "FAIL" and makes `confidence` a required field;
    constructing a value that violates this raises a ValidationError.
-/

namespace PolicySentinel

/-- Evidence status domain from schemas.py line 17: the pydantic field is
the two-valued type corresponding to the string literals "PASS" and "FAIL". -/
inductive Status where
  | PASS
  | FAIL
deriving DecidableEq

/-- Rule from schemas.py lines 8-12. -/
structure Rule where
  id : String
  category : String
  question : String
deriving DecidableEq

/-- Evidence from schemas.py lines 15-20. All four fields are required. -/
structure Evidence where
  status : Status
  confidence : ℚ
  quote : String
  reason : String
deriving DecidableEq

/-- AuditItem from schemas.py lines 23-29. All five fields are required. -/
structure AuditItem where
  model_name : String
  rule_id : String
  rule_question : String
  rule_category : String
  evidence : Evidence
deriving DecidableEq

/-- AuditResponse from schemas.py lines 32-38. -/
structure AuditResponse where
  policy_name : String
  total_rules : Nat
  total_models : Nat
  rules : List Rule
  audit_results : List AuditItem

/-- Coercion of a raw status string into the literal type of
schemas.py line 17; any other string fails pydantic validation. -/
def statusOfString (s : String) : Option Status :=
  if s = "PASS" then some Status.PASS
  else if s = "FAIL" then some Status.FAIL
  else none

/-- pydantic construction of an `Evidence` value from a raw status string and
an optional confidence: `status` must be the literal "PASS" or "FAIL" and
`confidence` is a required field (schemas.py lines 15-20), so construction
fails (raises ValidationError) when the status string is anything else or
the confidence is absent. -/
def Evidence.validate (status : String) (confidence : Option ℚ)
    (quote reason : String) : Except String Evidence :=
  match statusOfString status with
  | none => Except.error "pydantic ValidationError: Evidence"
  | some st =>
    match confidence with
    | none => Except.error "pydantic ValidationError: Evidence"
    | some c =>
      Except.ok { status := st, confidence := c, quote := quote, reason := reason }

/-! ### Evidence auditor: audit.py lines 175-268 (audit_model_against_rule) -/

/-- Outcome of json.loads plus field handling on the cleaned judgment-model
response for one audit cell (audit.py lines 235-252). The fence-stripping
regexes and json.loads act on untrusted external text and are modelled as a
single parse oracle:
  - `jsonError`: json.loads raised json.JSONDecodeError;
  - `shapeError`: the decoded value had the wrong shape, so a later step
    raised a non-JSONDecodeError exception (for example float() on a
    non-numeric confidence, or a missing quote or reason field rejected by
    pydantic);
  - `fields`: a JSON object with a status string, an optional numeric
    confidence, and quote and reason strings was decoded. -/
inductive VerdictParse where
  | jsonError (msg : String)
  | shapeError (msg : String)
  | fields (status : String) (confidence : Option ℚ) (quote : String) (reason : String)

/-- Audit prompt built in audit.py lines 213-233. The fixed instruction text
carries no data dependence and is abbreviated; the dependence on the rule
question and on the truncated retrieval context is exact. -/
def auditPrompt (question context : String) : String :=
  "You are a strict compliance auditor. Your job is to determine if the provided model documentation confirms compliance with the given rule." ++
  "\n\nRule Question: " ++ question ++
  "\n\nModel Documentation Context:\n" ++ context ++
  "\n\nInstructions, confidence bands and the JSON output format are fixed instruction text."

/-- The body of the `except Exception` handler of audit.py lines 262-268: it
attempts to build `Evidence(status="N/A", quote="", reason=f"Error during audit: ...")`.
If pydantic accepted that value it would be returned; in fact the handler
itself raises, because "N/A" is not an allowed status literal and
`confidence` is missing (schemas.py lines 15-20). -/
def naFallbackEvidence (msg : String) : Except String Evidence :=
  Evidence.validate "N/A" none "" ("Error during audit: " ++ msg.take 100)

/-- audit.py lines 175-268, `audit_model_against_rule`.
`similarity_search query model` models `vectorstore.similarity_search(rule.question, k=3, filter=...)`
returning the page contents of the retrieved chunks; `call_groq` models the
judgment-model call; `parse_verdict` models cleaning and decoding the
response. Exceptions from retrieval, from the model call, from decoding a
wrongly shaped object, and from pydantic rejecting the decoded status all
land in the `except Exception` handler (`naFallbackEvidence`); a
json.JSONDecodeError lands in the dedicated handler of lines 254-261. -/
def audit_model_against_rule
    (similarity_search : String → String → Except String (List String))
    (call_groq : String → Except String String)
    (parse_verdict : String → VerdictParse)
    (model_name : String) (rule : Rule) : Except String Evidence :=
  match similarity_search rule.question model_name with
  | Except.error e => naFallbackEvidence e
  | Except.ok results =>
    if results.isEmpty then
      Except.ok { status := Status.FAIL, confidence := 20,
                  quote := "No documentation available",
                  reason := "No documentation found for this model, assuming non-compliance." }
    else
      let context := String.intercalate "\n\n---\n\n" results
      match call_groq (auditPrompt rule.question (context.take 4000)) with
      | Except.error e => naFallbackEvidence e
      | Except.ok response =>
        match parse_verdict response with
        | VerdictParse.jsonError _ =>
          Except.ok { status := Status.FAIL, confidence := 10,
                      quote := "Error occurred during analysis",
                      reason := "Error parsing LLM response." }
        | VerdictParse.shapeError e => naFallbackEvidence e
        | VerdictParse.fields st conf quote reason =>
          let c : ℚ := match conf with
            | some c0 => max 0 (min 100 c0)
            | none => 50
          match Evidence.validate st (some c) quote reason with
          | Except.ok ev => Except.ok ev
          | Except.error e => naFallbackEvidence e

/-! ### Rule extractor: audit.py lines 99-172 -/

/-- Outcome of json.loads plus `Rule(**d)` construction on the cleaned
rule-extraction response (audit.py lines 137-149), modelled as a parse
oracle over the raw response text:
  - `jsonError`: json.loads raised json.JSONDecodeError (handler lines 154-158);
  - `otherError`: any other exception, for example pydantic rejecting a rule
    object (handler lines 159-161);
  - `parsed`: a list of rule objects was decoded and validated. -/
inductive RulesParse where
  | jsonError (msg : String)
  | otherError (msg : String)
  | parsed (rules : List Rule)
deriving DecidableEq

/-- The fixed fallback rules of audit.py lines 164-172 (`_get_fallback_rules`). -/
def fallback_rules : List Rule :=
  [ { id := "1", category := "Safety",
      question := "Does the model document red-teaming or adversarial testing?" },
    { id := "2", category := "Data",
      question := "Is the training data composition disclosed?" },
    { id := "3", category := "Transparency",
      question := "Are model limitations clearly documented?" },
    { id := "4", category := "Evaluation",
      question := "Are benchmark results provided?" },
    { id := "5", category := "Documentation",
      question := "Is there a model card or system card available?" } ]

/-- Extraction prompt built in audit.py lines 115-134. The fixed instruction
text carries no data dependence and is abbreviated; the dependence on the
truncated policy text is exact. -/
def extractionPrompt (truncated_text : String) : String :=
  "You are a policy analysis expert. Extract exactly 5 key binary compliance rules from the following policy document." ++
  "\n\nPolicy Document:\n" ++ truncated_text ++
  "\n\nReturn ONLY valid JSON in the fixed format given by the instruction text."

/-- audit.py lines 99-161, `extract_policy_rules`. The policy text is cut to
its first 15000 characters (line 111) before the prompt is built; an
exception raised by the model call lands in the `except Exception` handler,
and both parse-failure handlers return the fallback rules. The function is
total: extraction never raises to its caller. -/
def extract_policy_rules (call_groq : String → Except String String)
    (parse_rules : String → RulesParse) (policy_text : String) : List Rule :=
  let truncated_text := policy_text.take 15000
  match call_groq (extractionPrompt truncated_text) with
  | Except.error _ => fallback_rules
  | Except.ok response =>
    match parse_rules response with
    | RulesParse.jsonError _ => fallback_rules
    | RulesParse.otherError _ => fallback_rules
    | RulesParse.parsed rules => rules

/-! ### Audit orchestrator, batch form: audit.py lines 271-311 (run_full_audit) -/

/-- The cell loop of run_full_audit, flattened over the nested iteration
order (outer: models in input order, inner: rules in input order). A cell
that raises propagates its exception out of run_full_audit, discarding the
results accumulated so far; a cell that returns an Evidence is wrapped into
an AuditItem (audit.py lines 300-308) and appended. -/
def runAuditCells (cell : String → Rule → Except String Evidence) :
    List (String × Rule) → Except String (List AuditItem)
  | [] => Except.ok []
  | (m, r) :: rest =>
    match cell m r with
    | Except.error e => Except.error e
    | Except.ok ev =>
      match runAuditCells cell rest with
      | Except.error e => Except.error e
      | Except.ok items =>
        Except.ok ({ model_name := m, rule_id := r.id, rule_question := r.question,
                     rule_category := r.category, evidence := ev } :: items)

/-- audit.py lines 271-311, `run_full_audit`: audit every model against every
rule over the Cartesian product in the fixed nested order. The per-cell
evaluator (in the source, `audit_model_against_rule` applied to the vector
store) is a parameter. -/
def run_full_audit (cell : String → Rule → Except String Evidence)
    (model_names : List String) (rules : List Rule) : Except String (List AuditItem) :=
  runAuditCells cell (model_names.flatMap (fun m => rules.map (fun r => (m, r))))

/-! ### Streaming audit variant: main.py lines 384-460 (analyze_policy_stream) -/

/-- Server-sent events emitted by the streaming generator, restricted to the
fields the claims are about. The JSON payload fields of main.py lines
391-403 (per-cell progress), 418-430 (per-cell result), 444-454 (complete)
and 457-460 (error) are carried as constructor arguments. -/
inductive StreamEvent where
  | progress (stage : String) (message : String)
  | result (model : String) (rule_id : String) (rule_category : String)
      (rule_question : String) (status : Status) (completed : Nat) (total : Nat)
      (progressPct : ℚ)
  | complete (policy_name : String) (total_rules : Nat) (total_models : Nat)
      (total_audits : Nat) (audit_id : String) (message : String)
  | error (msg : String)
deriving DecidableEq

/-- The dict built in the streaming loop at main.py lines 409-413: keys
`model_name`, `rule` (the full rule dict) and `evidence`. -/
structure StreamAuditDict where
  model_name : String
  rule : Rule
  evidence : Evidence
deriving DecidableEq

/-- pydantic construction `AuditItem(**item)` at main.py line 438, applied to
a dict of shape `StreamAuditDict`. `AuditItem` (schemas.py lines 23-29)
requires the fields `rule_id`, `rule_question` and `rule_category`; the dict
supplies `model_name`, `rule` and `evidence` only, so the three required
fields are missing and pydantic validation always fails. -/
def AuditItem.ofStreamDict (_ : StreamAuditDict) : Except String AuditItem :=
  Except.error "pydantic ValidationError: AuditItem fields rule_id, rule_question, rule_category missing"

/-- The list comprehension `[AuditItem(**item) for item in audit_results]` at
main.py line 438: the first pydantic failure raises out of the comprehension. -/
def validateStreamItems : List StreamAuditDict → Except String (List AuditItem)
  | [] => Except.ok []
  | d :: rest =>
    match AuditItem.ofStreamDict d with
    | Except.error e => Except.error e
    | Except.ok it =>
      match validateStreamItems rest with
      | Except.error e => Except.error e
      | Except.ok its => Except.ok (it :: its)

/-- The message of the pre-cell progress event, main.py line 395. -/
def checkingMessage (rule_idx total_rules : Nat) (model : String) : String :=
  "Checking rule " ++ toString rule_idx ++ "/" ++ toString total_rules ++ " for " ++ model

/-- Rounding to one decimal place, as applied by Python `round(x, 1)` at
main.py line 428 and dashboard.py lines 42-43 and 73-74. Python floats are
modelled as exact rationals and the rounding as round-half-up on the exact
value; every concrete value appearing in a theorem below is strictly inside
its rounding bucket, so the treatment of exact ties is never exercised. -/
def round1 (q : ℚ) : ℚ := ((round (10 * q) : ℤ) : ℚ) / 10

/-- The nested audit loop of main.py lines 388-430, flattened into the list
of (model, 1-based rule index, rule) triples in iteration order. -/
def streamPairs (models : List String) (rules : List Rule) : List (String × Nat × Rule) :=
  models.flatMap (fun m => rules.enum.map (fun p => (m, p.1 + 1, p.2)))

/-- The per-cell portion of the streaming loop (main.py lines 388-430): for
each cell, a "progress" event is yielded before the cell runs and a "result"
event after it, carrying the running completed count and the percentage
`completed / total * 100` rounded to one decimal. A cell that raises ends
the loop: the events yielded so far stand, and the exception is handed to
the outer handler. Returns the yielded events together with either the
accumulated result dicts or the pending exception. -/
def streamCells (cell : String → Rule → Except String Evidence)
    (total_rules total : Nat) :
    List (String × Nat × Rule) → Nat → List StreamEvent × Except String (List StreamAuditDict)
  | [], _ => ([], Except.ok [])
  | (m, ridx, r) :: rest, completed =>
    let pre := StreamEvent.progress "auditing" (checkingMessage ridx total_rules m)
    match cell m r with
    | Except.error e => ([pre], Except.error e)
    | Except.ok ev =>
      let done := completed + 1
      let resEv := StreamEvent.result m r.id r.category r.question ev.status done total
        (round1 (((done : ℚ) / (total : ℚ)) * 100))
      let (evs, out) := streamCells cell total_rules total rest done
      (pre :: resEv :: evs,
       match out with
       | Except.error e => Except.error e
       | Except.ok ds => Except.ok ({ model_name := m, rule := r, evidence := ev } :: ds))

/-- main.py lines 384-460: the audit-loop portion of `event_generator` in
`analyze_policy_stream`, entered once text extraction, validation, rule
extraction and model listing have succeeded (their earlier progress events
are not modelled). After the loop, line 438 rebuilds AuditItems from the
accumulated dicts, line 441 persists the response through
`store_audit_result` (a parameter here), and lines 444-454 yield the final
"complete" event; any exception reaching the outer handler yields an
"error" event instead (lines 456-460). -/
def event_generator (cell : String → Rule → Except String Evidence)
    (store_audit_result : AuditResponse → String) (filename : String)
    (model_names : List String) (rules : List Rule) : List StreamEvent :=
  let total_audits := model_names.length * rules.length
  let (evs, out) := streamCells cell rules.length total_audits (streamPairs model_names rules) 0
  match out with
  | Except.error e => evs ++ [StreamEvent.error e]
  | Except.ok dicts =>
    match validateStreamItems dicts with
    | Except.error e => evs ++ [StreamEvent.error e]
    | Except.ok items =>
      let resp : AuditResponse :=
        { policy_name := filename, total_rules := rules.length,
          total_models := model_names.length, rules := rules, audit_results := items }
      evs ++ [StreamEvent.complete filename rules.length model_names.length dicts.length
                (store_audit_result resp) "Audit complete!"]

/-! ### Compliance aggregator: dashboard.py lines 14-82 (calculate_dashboard_stats) -/

/-- Number of the audit items of model `m` with status PASS
(`model_stats[model]["PASS"]`, dashboard.py line 28). -/
def passCount (items : List AuditItem) (m : String) : Nat :=
  items.countP (fun it => decide (it.model_name = m ∧ it.evidence.status = Status.PASS))

/-- Number of the audit items of model `m` with status FAIL
(`model_stats[model]["FAIL"]`, dashboard.py line 28). -/
def failCount (items : List AuditItem) (m : String) : Nat :=
  items.countP (fun it => decide (it.model_name = m ∧ it.evidence.status = Status.FAIL))

/-- Number of all audit items of model `m`
(`model_stats[model]["total"]`, dashboard.py line 29). -/
def totalCount (items : List AuditItem) (m : String) : Nat :=
  items.countP (fun it => decide (it.model_name = m))

/-- Sum of the confidences of all audit items of model `m`, accumulated in
iteration order (`model_stats[model]["avg_confidence"] += confidence`,
dashboard.py line 30). -/
def confSum (items : List AuditItem) (m : String) : ℚ :=
  ((items.filter (fun it => decide (it.model_name = m))).map
    (fun it => it.evidence.confidence)).foldl (· + ·) 0

/-- The internal full-precision per-model compliance score of dashboard.py
line 37: `(stats["PASS"] / total) * 100 if total > 0 else 0.0`. -/
def complianceScore (items : List AuditItem) (m : String) : ℚ :=
  if totalCount items m > 0 then
    ((passCount items m : ℚ) / (totalCount items m : ℚ)) * 100
  else 0

/-- The internal full-precision per-model average confidence of dashboard.py
line 38. -/
def avgConfidence (items : List AuditItem) (m : String) : ℚ :=
  if totalCount items m > 0 then confSum items m / (totalCount items m : ℚ) else 0

/-- One entry of `model_rankings`, dashboard.py lines 40-47. The
`compliance_score` and `avg_confidence` fields hold the values already
rounded to one decimal by lines 42-43. -/
structure ModelRanking where
  model_name : String
  compliance_score : ℚ
  avg_confidence : ℚ
  pass_count : Nat
  fail_count : Nat
  total_rules : Nat
deriving DecidableEq

/-- The models in order of first appearance in `audit_results`: the
iteration order of the insertion-ordered `model_stats` dict built by the
loop at dashboard.py lines 25-31. -/
def firstAppearanceModels (items : List AuditItem) : List String :=
  items.foldl (fun acc it => if it.model_name ∈ acc then acc else acc ++ [it.model_name]) []

/-- The `model_rankings` list as built by dashboard.py lines 34-47, before
sorting: one entry per model in first-appearance order, with the percentage
fields rounded to one decimal at construction (lines 42-43). -/
def preRankings (items : List AuditItem) : List ModelRanking :=
  (firstAppearanceModels items).map (fun m =>
    { model_name := m,
      compliance_score := round1 (complianceScore items m),
      avg_confidence := round1 (avgConfidence items m),
      pass_count := passCount items m,
      fail_count := failCount items m,
      total_rules := totalCount items m })

/-- Stable descending insertion by the stored (rounded) `compliance_score`
key: an element is placed before the first already-sorted element whose key
is not larger, so that elements with equal keys keep their original relative
order. -/
def insertRanked (x : ModelRanking) : List ModelRanking → List ModelRanking
  | [] => [x]
  | y :: ys =>
    if y.compliance_score ≤ x.compliance_score then x :: y :: ys
    else y :: insertRanked x ys

/-- Stable insertion sort by descending `compliance_score`. -/
def sortRanked : List ModelRanking → List ModelRanking
  | [] => []
  | x :: xs => insertRanked x (sortRanked xs)

/-- `model_rankings.sort(key=lambda x: x["compliance_score"], reverse=True)`,
dashboard.py line 50. Python list.sort is a stable sort and `reverse=True`
keeps elements with equal keys in their original relative order; a stable
sort by a fixed key is unique, so the stable insertion sort `sortRanked`
computes the same list. Note that the sort key is the `compliance_score`
dict entry, which line 42 already rounded to one decimal. -/
def model_rankings (items : List AuditItem) : List ModelRanking :=
  sortRanked (preRankings items)

/-- The claim-relevant fields of the dict returned by
`calculate_dashboard_stats` (dashboard.py lines 72-82). The `rules` argument
of the source function is unused by it, and the per-category breakdown is
not needed by any claim and is omitted. -/
structure DashboardStats where
  overall_compliance : ℚ
  avg_confidence : ℚ
  total_checks : Nat
  total_pass : Nat
  total_fail : Nat
  model_rankings : List ModelRanking
  best_model : Option String
  worst_model : Option String

/-- dashboard.py lines 14-82, `calculate_dashboard_stats`, restricted to the
fields of `DashboardStats`. -/
def calculate_dashboard_stats (items : List AuditItem) : DashboardStats :=
  let total_pass := items.countP (fun it => decide (it.evidence.status = Status.PASS))
  let total_fail := items.countP (fun it => decide (it.evidence.status = Status.FAIL))
  { overall_compliance :=
      round1 (if items.length > 0 then ((total_pass : ℚ) / (items.length : ℚ)) * 100 else 0),
    avg_confidence :=
      round1 (if items.length > 0 then
        ((items.map (fun it => it.evidence.confidence)).foldl (· + ·) 0) / (items.length : ℚ)
      else 0),
    total_checks := items.length,
    total_pass := total_pass,
    total_fail := total_fail,
    model_rankings := model_rankings items,
    best_model := (model_rankings items).head?.map ModelRanking.model_name,
    worst_model := (model_rankings items).getLast?.map ModelRanking.model_name }

/-! ### Concrete collaborators and inputs used by witnesses and counterexamples -/

/-- A rule used as concrete input (the first fallback rule). -/
def ruleOne : Rule :=
  { id := "1", category := "Safety",
    question := "Does the model document red-teaming or adversarial testing?" }

/-- Retrieval that raises, for example a connection error to the vector store. -/
def searchDown : String → String → Except String (List String) :=
  fun _ _ => Except.error "connection refused"

/-- Retrieval returning an empty chunk list. -/
def searchEmpty : String → String → Except String (List String) :=
  fun _ _ => Except.ok []

/-- Retrieval returning one chunk. -/
def searchOne : String → String → Except String (List String) :=
  fun _ _ => Except.ok ["chunk text"]

/-- Judgment model that answers every prompt. -/
def groqOk : String → Except String String :=
  fun _ => Except.ok "model response"

/-- Judgment model whose call raises, as when GROQ_API_KEY is unset. -/
def groqDown : String → Except String String :=
  fun _ => Except.error "GROQ_API_KEY environment variable not set"

/-- Verdict parse oracle: every response fails json.loads. -/
def parseVerdictJsonErr : String → VerdictParse :=
  fun _ => VerdictParse.jsonError "Expecting value"

/-- Verdict parse oracle: a PASS verdict with an out-of-range confidence. -/
def parseVerdictBig : String → VerdictParse :=
  fun _ => VerdictParse.fields "PASS" (some 250) "a quote" "a reason"

/-- Rules parse oracle: every response fails json.loads. -/
def parseRulesJsonErr : String → RulesParse :=
  fun _ => RulesParse.jsonError "Expecting value"

/-- Four syntactically valid rules, as a judgment model that ignores the
request for exactly 5 rules could return. -/
def fourRules : List Rule :=
  [ { id := "1", category := "Safety", question := "q1" },
    { id := "2", category := "Data", question := "q2" },
    { id := "3", category := "Transparency", question := "q3" },
    { id := "4", category := "Evaluation", question := "q4" } ]

/-- Rules parse oracle decoding `fourRules` from every response. -/
def parseRulesFour : String → RulesParse :=
  fun _ => RulesParse.parsed fourRules

/-- Rules parse oracle decoding the single rule `ruleOne` from every response. -/
def parseRulesOne : String → RulesParse :=
  fun _ => RulesParse.parsed [ruleOne]

/-- A cell evaluator where every cell completes with a PASS evidence. -/
def cellPass : String → Rule → Except String Evidence :=
  fun _ _ => Except.ok { status := Status.PASS, confidence := 80, quote := "q", reason := "r" }

/-- A persistence store returning a fixed identifier. -/
def storeFixed : AuditResponse → String := fun _ => "audit-id-1"

/-- The audit item produced by `cellPass` for model "ModelA" and `ruleOne`. -/
def itemPassA : AuditItem :=
  { model_name := "ModelA", rule_id := "1",
    rule_question := "Does the model document red-teaming or adversarial testing?",
    rule_category := "Safety",
    evidence := { status := Status.PASS, confidence := 80, quote := "q", reason := "r" } }

/-- An audit item of model `m` with status `st` against a fixed rule, used to
build aggregation inputs. -/
def itemOf (m : String) (st : Status) : AuditItem :=
  { model_name := m, rule_id := "1", rule_question := "q", rule_category := "Safety",
    evidence := { status := st, confidence := 50, quote := "", reason := "" } }

/-- Aggregation input on which the rounded and the full-precision compliance
scores order the models differently: ModelA (first appearance first) passes
5 of 28 items, exact score 125/7, about 17.857; ModelB passes 7 of 39,
exact score 700/39, about 17.949. Both round to 17.9 at one decimal. -/
def c5Items : List AuditItem :=
  List.replicate 5 (itemOf "ModelA" Status.PASS) ++
  List.replicate 23 (itemOf "ModelA" Status.FAIL) ++
  List.replicate 7 (itemOf "ModelB" Status.PASS) ++
  List.replicate 32 (itemOf "ModelB" Status.FAIL)

/-! ### Claim theorems -/

/-- Claim C2 (refuted; code bug): on an error other than a structured-data
parse failure — here the retrieval call raising — `audit_model_against_rule`
does not return an Evidence with status N/A and reason "Error during audit: ...";
the `except Exception` handler itself raises a pydantic ValidationError,
because schemas.Evidence forbids the status string "N/A" and requires a
confidence, so the call raises instead of returning a terminal Evidence. -/
theorem C2_audit_cell_raises_on_retrieval_error :
    audit_model_against_rule searchDown groqOk parseVerdictJsonErr "ModelA" ruleOne =
      Except.error "pydantic ValidationError: Evidence" := rfl

/-- Claim C3 (refuted; code bug): in a streaming run where every cell
completes (one model, one rule, the cell returning a PASS evidence), the
per-cell "progress" event before the cell and the "result" event after it —
with running count 1 of 1 and percentage 100.0 — are emitted as claimed, but
the final event is an "error" event rather than the claimed "complete"
event: rebuilding AuditItems at main.py line 438 raises a pydantic
ValidationError because the loop dicts lack the required fields rule_id,
rule_question and rule_category. -/
theorem C3_stream_ends_in_error_not_complete :
    event_generator cellPass storeFixed "policy.pdf" ["ModelA"] [ruleOne] =
      [StreamEvent.progress "auditing" (checkingMessage 1 1 "ModelA"),
       StreamEvent.result "ModelA" "1" "Safety"
         "Does the model document red-teaming or adversarial testing?" Status.PASS 1 1 100,
       StreamEvent.error
         "pydantic ValidationError: AuditItem fields rule_id, rule_question, rule_category missing"] := by
  with_unfolding_all decide

/-- Claim C7: when the rule-extraction response never parses as structured
data (or the model call itself raises), `extract_policy_rules` returns
exactly the 5 fixed fallback rules, whose ids are "1".."5" and whose
categories are Safety, Data, Transparency, Evaluation, Documentation.
Extraction never raises to its caller: the embedding is a total function
into `List Rule`, mirroring the handlers of audit.py lines 154-161 that
catch every exception of the extraction body. -/
theorem C7_extraction_fallback (call_groq : String → Except String String)
    (parse_rules : String → RulesParse) (policy_text : String)
    (hfail : ∀ response rules,
      call_groq (extractionPrompt (policy_text.take 15000)) = Except.ok response →
      parse_rules response ≠ RulesParse.parsed rules) :
    extract_policy_rules call_groq parse_rules policy_text = fallback_rules ∧
    fallback_rules.map Rule.id = ["1", "2", "3", "4", "5"] ∧
    fallback_rules.map Rule.category =
      ["Safety", "Data", "Transparency", "Evaluation", "Documentation"] := by
  refine ⟨?_, rfl, rfl⟩
  simp only [extract_policy_rules]
  split
  · rfl
  · rename_i response hg
    split
    · rfl
    · rfl
    · rename_i rules hp
      exact absurd hp (hfail response rules hg)

/-- Witness for C7 at a concrete input: the model call raises and every
parse fails, so extraction yields the fallback rules. -/
theorem C7_extraction_fallback_witness :
    extract_policy_rules groqDown parseRulesJsonErr "a policy document" = fallback_rules ∧
    fallback_rules.map Rule.id = ["1", "2", "3", "4", "5"] ∧
    fallback_rules.map Rule.category =
      ["Safety", "Data", "Transparency", "Evaluation", "Documentation"] :=
  C7_extraction_fallback groqDown parseRulesJsonErr "a policy document"
    (fun _ _ hg => Except.noConfusion hg)

/-- Claim C8: if retrieval returns an empty chunk list for a (model, rule)
cell, the cell returns an Evidence with status FAIL, confidence 20.0 and
quote "No documentation available" (audit.py lines 201-207). -/
theorem C8_empty_retrieval_default
    (similarity_search : String → String → Except String (List String))
    (call_groq : String → Except String String) (parse_verdict : String → VerdictParse)
    (model_name : String) (rule : Rule)
    (h : similarity_search rule.question model_name = Except.ok []) :
    audit_model_against_rule similarity_search call_groq parse_verdict model_name rule =
      Except.ok { status := Status.FAIL, confidence := 20,
                  quote := "No documentation available",
                  reason := "No documentation found for this model, assuming non-compliance." } := by
  unfold audit_model_against_rule
  rw [h]
  rfl

/-- Witness for C8 at a concrete input. -/
theorem C8_empty_retrieval_default_witness :
    audit_model_against_rule searchEmpty groqOk parseVerdictBig "ModelA" ruleOne =
      Except.ok { status := Status.FAIL, confidence := 20,
                  quote := "No documentation available",
                  reason := "No documentation found for this model, assuming non-compliance." } :=
  C8_empty_retrieval_default searchEmpty groqOk parseVerdictBig "ModelA" ruleOne rfl

/-- Claim C9 counterexample: an extraction run in which the response parses
as structured data (extraction succeeds) but yields 4 rules, not 5:
audit.py lines 146-152 return however many rules the response contains
without enforcing the count of 5 requested by the prompt. -/
theorem C9_counterexample :
    parseRulesFour "model response" = RulesParse.parsed fourRules ∧
    extract_policy_rules groqOk parseRulesFour "a policy document" = fourRules ∧
    fourRules.length ≠ 5 :=
  ⟨rfl, rfl, by decide⟩

/-- Claim C9 as amended: when extraction succeeds, `extract_policy_rules`
returns exactly the list of rules parsed from the judgment-model response —
the count is whatever the model returned, not necessarily 5. -/
theorem C9_success_returns_parsed (call_groq : String → Except String String)
    (parse_rules : String → RulesParse) (policy_text response : String) (rules : List Rule)
    (hok : call_groq (extractionPrompt (policy_text.take 15000)) = Except.ok response)
    (hparse : parse_rules response = RulesParse.parsed rules) :
    extract_policy_rules call_groq parse_rules policy_text = rules := by
  simp only [extract_policy_rules]
  split
  · rename_i e heq
    rw [hok] at heq
    exact Except.noConfusion heq
  · rename_i response2 heq
    rw [hok] at heq
    injection heq with h2
    subst h2
    split
    · rename_i m hp
      rw [hparse] at hp
      exact RulesParse.noConfusion hp
    · rename_i m hp
      rw [hparse] at hp
      exact RulesParse.noConfusion hp
    · rename_i rs hp
      rw [hparse] at hp
      injection hp with h3
      exact h3.symm

/-- Witness for the amended C9 at a concrete input. -/
theorem C9_success_returns_parsed_witness :
    extract_policy_rules groqOk parseRulesOne "a policy document" = [ruleOne] :=
  C9_success_returns_parsed groqOk parseRulesOne "a policy document" "model response"
    [ruleOne] rfl rfl

/-- Claim C10: extraction depends only on the first 15000 characters of the
policy text: audit.py line 111 cuts the text to 15000 characters and nothing
else in the function reads the original text, so two texts agreeing on their
first 15000 characters produce the same rules under the same oracles. -/
theorem C10_truncation_determines_extraction (call_groq : String → Except String String)
    (parse_rules : String → RulesParse) (t1 t2 : String)
    (h : t1.take 15000 = t2.take 15000) :
    extract_policy_rules call_groq parse_rules t1 =
      extract_policy_rules call_groq parse_rules t2 := by
  simp only [extract_policy_rules]
  rw [h]

/-- Witness for C10 at a concrete input. -/
theorem C10_truncation_determines_extraction_witness :
    extract_policy_rules groqDown parseRulesJsonErr ("a policy " ++ "document") =
      extract_policy_rules groqDown parseRulesJsonErr "a policy document" :=
  C10_truncation_determines_extraction groqDown parseRulesJsonErr
    ("a policy " ++ "document") "a policy document" rfl

/-- The `except Exception` handler of the evidence auditor never returns: the
Evidence it attempts to build is always rejected by pydantic. -/
theorem naFallbackEvidence_ne_ok (msg : String) (ev : Evidence) :
    naFallbackEvidence msg ≠ Except.ok ev := by
  intro hc
  exact Except.noConfusion hc

/-- A successfully validated Evidence carries exactly the supplied confidence. -/
theorem Evidence.validate_ok_confidence (s : String) (c : ℚ) (q r : String) (ev : Evidence)
    (h : Evidence.validate s (some c) q r = Except.ok ev) : ev.confidence = c := by
  unfold Evidence.validate at h
  split at h
  · exact Except.noConfusion h
  · injection h with h1
    rw [← h1]

/-- Claim C6: every Evidence value actually returned by the evidence auditor
has confidence in [0, 100]. On the successful parse path the parsed
confidence is clamped by `max 0 (min 100 c)` and defaults to 50 when absent
(audit.py lines 246-250); the no-documentation path returns 20 and the
JSON-parse-error path returns 10; the `except Exception` path returns no
Evidence at all (it raises, see C2). -/
theorem C6_confidence_in_range
    (similarity_search : String → String → Except String (List String))
    (call_groq : String → Except String String) (parse_verdict : String → VerdictParse)
    (model_name : String) (rule : Rule) (ev : Evidence)
    (h : audit_model_against_rule similarity_search call_groq parse_verdict model_name rule =
      Except.ok ev) :
    0 ≤ ev.confidence ∧ ev.confidence ≤ 100 := by
  unfold audit_model_against_rule at h
  split at h
  · exact absurd h (naFallbackEvidence_ne_ok _ _)
  · split at h
    · injection h with h1
      rw [← h1]
      norm_num
    · dsimp only at h
      split at h
      · exact absurd h (naFallbackEvidence_ne_ok _ _)
      · split at h
        · injection h with h1
          rw [← h1]
          norm_num
        · exact absurd h (naFallbackEvidence_ne_ok _ _)
        · rename_i st conf quote reason hparse
          split at h
          · rename_i ev2 hval
            injection h with h1
            subst h1
            rw [Evidence.validate_ok_confidence _ _ _ _ _ hval]
            cases conf with
            | none =>
              dsimp only
              norm_num
            | some c0 =>
              constructor
              · exact le_max_left 0 _
              · exact max_le (by norm_num) (min_le_left 100 c0)
          · exact absurd h (naFallbackEvidence_ne_ok _ _)

/-- Witness for C6 at a concrete input: the judgment model reports an
out-of-range confidence of 250, which the auditor clamps to 100. -/
theorem C6_confidence_in_range_witness :
    0 ≤ (Evidence.mk Status.PASS 100 "a quote" "a reason").confidence ∧
    (Evidence.mk Status.PASS 100 "a quote" "a reason").confidence ≤ 100 :=
  C6_confidence_in_range searchOne groqOk parseVerdictBig "ModelA" ruleOne _
    (by with_unfolding_all rfl)

/-- Every audit item splits into exactly one of PASS or FAIL, so a model's
total item count is its PASS count plus its FAIL count (the status domain of
schemas.py line 17 has no third value). -/
theorem totalCount_eq_pass_add_fail (items : List AuditItem) (m : String) :
    totalCount items m = passCount items m + failCount items m := by
  unfold totalCount passCount failCount
  induction items with
  | nil => rfl
  | cons it rest ih =>
    rw [List.countP_cons, List.countP_cons, List.countP_cons, ih]
    by_cases hm : it.model_name = m
    · cases hst : it.evidence.status <;> (simp [hm, hst]; omega)
    · simp [hm]

/-- Claim C1: the per-model compliance score computed by the aggregator
(the full-precision value of dashboard.py line 37, which lines 40-47 round
only at the output boundary) equals pass_count / (pass_count + fail_count) * 100,
and is 0 when the model has no PASS or FAIL items. Per schemas.py line 17 an
audit item carries no status other than PASS and FAIL, so no N/A items exist
and the denominator equals the number of evaluated items of the model. -/
theorem C1_compliance_score_formula (items : List AuditItem) (m : String) :
    complianceScore items m =
      if passCount items m + failCount items m = 0 then 0
      else ((passCount items m : ℚ) /
              ((passCount items m + failCount items m : Nat) : ℚ)) * 100 := by
  unfold complianceScore
  rw [totalCount_eq_pass_add_fail]
  rcases Nat.eq_zero_or_pos (passCount items m + failCount items m) with h0 | hpos
  · simp [h0]
  · rw [if_pos hpos, if_neg (Nat.pos_iff_ne_zero.mp hpos)]

/-- The flattened audit loop succeeds when every cell succeeds, and its
items project to the model and rule-id pairs in iteration order. -/
theorem runAuditCells_ok (cell : String → Rule → Except String Evidence)
    (l : List (String × Rule)) (h : ∀ p ∈ l, ∃ ev, cell p.1 p.2 = Except.ok ev) :
    ∃ items, runAuditCells cell l = Except.ok items ∧
      items.map (fun it => (it.model_name, it.rule_id)) = l.map (fun p => (p.1, p.2.id)) := by
  induction l with
  | nil => exact ⟨[], rfl, rfl⟩
  | cons p rest ih =>
    obtain ⟨m, r⟩ := p
    obtain ⟨ev, hev⟩ := h (m, r) (List.mem_cons_self _ _)
    obtain ⟨items, hrun, hmap⟩ := ih (fun q hq => h q (List.mem_cons_of_mem _ hq))
    refine ⟨{ model_name := m, rule_id := r.id, rule_question := r.question,
              rule_category := r.category, evidence := ev } :: items, ?_, ?_⟩
    · unfold runAuditCells
      rw [hev, hrun]
    · simp [hmap]

/-- Length of the flattened model × rule product. -/
theorem length_pairs (models : List String) (rules : List Rule) :
    (models.flatMap (fun m => rules.map (fun r => (m, r)))).length =
      models.length * rules.length := by
  induction models with
  | nil => simp
  | cons m ms ih =>
    simp only [List.flatMap_cons, List.length_append, List.length_map, ih, List.length_cons,
      Nat.succ_mul]
    omega

/-- Projecting the product pairs to (model, rule id) pairs. -/
theorem map_pairs_proj (models : List String) (rules : List Rule) :
    (models.flatMap (fun m => rules.map (fun r => (m, r)))).map
        (fun p => (p.1, p.2.id)) =
      models.flatMap (fun m => rules.map (fun r => (m, r.id))) := by
  induction models with
  | nil => rfl
  | cons m ms ih =>
    simp only [List.flatMap_cons, List.map_append, List.map_map, ih]
    rfl

/-- Occurrences of a fixed (model, rule id) pair in one inner row of the
flattened product. -/
theorem countP_pairs_inner (rules : List Rule) (m a b : String) :
    (rules.map (fun r => (m, r.id))).countP (fun p => decide (p.1 = a ∧ p.2 = b)) =
      if m = a then rules.countP (fun r => decide (r.id = b)) else 0 := by
  induction rules with
  | nil => by_cases hm : m = a <;> simp [hm]
  | cons r rs ihr =>
    rw [List.map_cons, List.countP_cons, List.countP_cons, ihr]
    by_cases hm : m = a <;> by_cases hr : r.id = b <;> simp [hm, hr]

/-- Occurrences of a fixed (model, rule id) pair in the flattened product:
the product of the occurrence counts of the model and of the rule id. -/
theorem countP_pairs (models : List String) (rules : List Rule) (a b : String) :
    (models.flatMap (fun m => rules.map (fun r => (m, r.id)))).countP
        (fun p => decide (p.1 = a ∧ p.2 = b)) =
      (models.countP (fun m => decide (m = a))) *
        (rules.countP (fun r => decide (r.id = b))) := by
  induction models with
  | nil => simp
  | cons m ms ih =>
    rw [List.flatMap_cons, List.countP_append, ih, List.countP_cons, countP_pairs_inner]
    by_cases hm : m = a <;> simp [hm] <;> ring

/-- In a list without duplicates, a member is counted exactly once. -/
theorem countP_eq_one_of_nodup {α : Type} [DecidableEq α] (l : List α) (hl : l.Nodup)
    (a : α) (ha : a ∈ l) : l.countP (fun x => decide (x = a)) = 1 := by
  induction l with
  | nil => cases ha
  | cons x xs ih =>
    rw [List.countP_cons]
    rcases List.mem_cons.mp ha with h1 | h1
    · subst h1
      have hx : a ∉ xs := (List.nodup_cons.mp hl).1
      have h0 : xs.countP (fun y => decide (y = a)) = 0 := by
        rw [List.countP_eq_zero]
        intro y hy
        simp only [decide_eq_true_eq]
        intro hya
        exact hx (hya ▸ hy)
      simp [h0]
    · have hxa : x ≠ a := by
        intro hc
        exact (List.nodup_cons.mp hl).1 (hc ▸ h1)
      rw [ih (List.nodup_cons.mp hl).2 h1]
      simp [hxa]

/-- Claim C4 counterexample: with a duplicated model name, `run_full_audit`
still returns len(models) * len(rules) items, but the (model, rule_id) pair
appears twice, not exactly once — the claim quantifies over every list of
models and fails for lists with duplicates. -/
theorem C4_counterexample :
    run_full_audit cellPass ["ModelA", "ModelA"] [ruleOne] =
      Except.ok [itemPassA, itemPassA] ∧
    [itemPassA, itemPassA].countP
        (fun it => decide (it.model_name = "ModelA" ∧ it.rule_id = "1")) = 2 :=
  ⟨rfl, by decide⟩

/-- Claim C4 as amended: given that every cell terminates with an Evidence,
`run_full_audit` returns exactly len(models) * len(rules) items ordered by
the fixed nested enumeration (models outermost in input order, rules
innermost in input order) — this holds for every list of models and rules,
duplicates included; and provided additionally that the model names are
pairwise distinct and the rule ids are pairwise distinct, every
(model_name, rule_id) pair appears exactly once. -/
theorem C4_full_audit_matrix (cell : String → Rule → Except String Evidence)
    (models : List String) (rules : List Rule)
    (hcell : ∀ m ∈ models, ∀ r ∈ rules, ∃ ev, cell m r = Except.ok ev) :
    ∃ items, run_full_audit cell models rules = Except.ok items ∧
      items.length = models.length * rules.length ∧
      items.map (fun it => (it.model_name, it.rule_id)) =
        models.flatMap (fun m => rules.map (fun r => (m, r.id))) ∧
      (models.Nodup → (rules.map Rule.id).Nodup →
        ∀ m ∈ models, ∀ r ∈ rules,
          items.countP (fun it => decide (it.model_name = m ∧ it.rule_id = r.id)) = 1) := by
  obtain ⟨items, hrun, hmap⟩ := runAuditCells_ok cell
    (models.flatMap (fun m => rules.map (fun r => (m, r))))
    (fun p hp => by
      rcases List.mem_flatMap.mp hp with ⟨m, hmm, hpm⟩
      rcases List.mem_map.mp hpm with ⟨r, hrr, hpr⟩
      subst hpr
      exact hcell m hmm r hrr)
  have hmap2 : items.map (fun it => (it.model_name, it.rule_id)) =
      models.flatMap (fun m => rules.map (fun r => (m, r.id))) := by
    rw [hmap, map_pairs_proj]
  refine ⟨items, hrun, ?_, hmap2, ?_⟩
  · have hlen := congrArg List.length hmap
    simp only [List.length_map] at hlen
    rw [hlen, length_pairs]
  · intro hm hr m hmm r hrr
    have hcount : items.countP (fun it => decide (it.model_name = m ∧ it.rule_id = r.id)) =
        (items.map (fun it => (it.model_name, it.rule_id))).countP
          (fun p => decide (p.1 = m ∧ p.2 = r.id)) := by
      rw [List.countP_map]
      rfl
    rw [hcount, hmap2, countP_pairs,
      countP_eq_one_of_nodup models hm m hmm]
    have hidcount : rules.countP (fun r2 => decide (r2.id = r.id)) =
        (rules.map Rule.id).countP (fun x => decide (x = r.id)) := by
      rw [List.countP_map]
      rfl
    rw [hidcount, countP_eq_one_of_nodup (rules.map Rule.id) hr r.id
      (List.mem_map.mpr ⟨r, hrr, rfl⟩)]

/-- Witness for the amended C4 at a concrete input: two distinct models, one
rule, every cell completing. -/
theorem C4_full_audit_matrix_witness :
    ∃ items, run_full_audit cellPass ["ModelA", "ModelB"] [ruleOne] = Except.ok items ∧
      items.length = (["ModelA", "ModelB"] : List String).length * ([ruleOne] : List Rule).length ∧
      items.map (fun it => (it.model_name, it.rule_id)) =
        (["ModelA", "ModelB"] : List String).flatMap
          (fun m => ([ruleOne] : List Rule).map (fun r => (m, r.id))) ∧
      ((["ModelA", "ModelB"] : List String).Nodup →
        (([ruleOne] : List Rule).map Rule.id).Nodup →
        ∀ m ∈ (["ModelA", "ModelB"] : List String), ∀ r ∈ ([ruleOne] : List Rule),
          items.countP (fun it => decide (it.model_name = m ∧ it.rule_id = r.id)) = 1) :=
  C4_full_audit_matrix cellPass ["ModelA", "ModelB"] [ruleOne]
    (fun _ _ _ _ => ⟨_, rfl⟩)

/-- Membership in a ranked insertion. -/
theorem mem_insertRanked (x z : ModelRanking) (l : List ModelRanking) :
    z ∈ insertRanked x l ↔ z = x ∨ z ∈ l := by
  induction l with
  | nil => simp [insertRanked]
  | cons y ys ih =>
    unfold insertRanked
    by_cases hc : y.compliance_score ≤ x.compliance_score
    · rw [if_pos hc]
      simp [List.mem_cons]
    · rw [if_neg hc]
      simp [List.mem_cons, ih]
      tauto

/-- Ranked insertion into a descending-sorted list stays descending-sorted. -/
theorem pairwise_insertRanked (x : ModelRanking) (l : List ModelRanking)
    (h : l.Pairwise (fun a b => b.compliance_score ≤ a.compliance_score)) :
    (insertRanked x l).Pairwise (fun a b => b.compliance_score ≤ a.compliance_score) := by
  induction l with
  | nil => simp [insertRanked]
  | cons y ys ih =>
    rw [List.pairwise_cons] at h
    obtain ⟨hy, hys⟩ := h
    unfold insertRanked
    by_cases hc : y.compliance_score ≤ x.compliance_score
    · rw [if_pos hc, List.pairwise_cons]
      constructor
      · intro z hz
        rcases List.mem_cons.mp hz with rfl | hz2
        · exact hc
        · exact le_trans (hy z hz2) hc
      · rw [List.pairwise_cons]
        exact ⟨hy, hys⟩
    · rw [if_neg hc, List.pairwise_cons]
      refine ⟨?_, ih hys⟩
      intro z hz
      rcases (mem_insertRanked x z ys).mp hz with rfl | hz2
      · exact le_of_lt (lt_of_not_le hc)
      · exact hy z hz2

/-- The sorted rankings are descending in the stored (rounded) score. -/
theorem sortRanked_pairwise (l : List ModelRanking) :
    (sortRanked l).Pairwise (fun a b => b.compliance_score ≤ a.compliance_score) := by
  induction l with
  | nil => simp [sortRanked]
  | cons x xs ih => exact pairwise_insertRanked x _ ih

/-- Stability of ranked insertion: the subsequence of entries with any fixed
key value is unchanged. -/
theorem filter_insertRanked (x : ModelRanking) (l : List ModelRanking) (q : ℚ) :
    (insertRanked x l).filter (fun e => decide (e.compliance_score = q)) =
      (x :: l).filter (fun e => decide (e.compliance_score = q)) := by
  induction l with
  | nil => rfl
  | cons y ys ih =>
    unfold insertRanked
    by_cases hc : y.compliance_score ≤ x.compliance_score
    · rw [if_pos hc]
    · rw [if_neg hc]
      by_cases hx : x.compliance_score = q
      · by_cases hy2 : y.compliance_score = q
        · exact absurd (le_of_eq (hy2.trans hx.symm)) hc
        · simp [List.filter_cons, hx, hy2, ih]
      · simp [List.filter_cons, hx, ih]

/-- Stability of the ranked sort: the subsequence of entries with any fixed
key value is the one of the unsorted list. -/
theorem filter_sortRanked (l : List ModelRanking) (q : ℚ) :
    (sortRanked l).filter (fun e => decide (e.compliance_score = q)) =
      l.filter (fun e => decide (e.compliance_score = q)) := by
  induction l with
  | nil => rfl
  | cons x xs ih =>
    unfold sortRanked
    rw [filter_insertRanked, List.filter_cons, List.filter_cons, ih]

set_option maxRecDepth 100000 in
/-- Claim C5 counterexample: on `c5Items`, ModelA appears first with exact
compliance score 125/7 (about 17.857) and ModelB second with exact score
700/39 (about 17.949); both round to 17.9, which is the sort key, so the
stable sort leaves ModelA ranked ahead of ModelB even though the
full-precision score of ModelB is strictly larger — the rankings are not
sorted by the full-precision score. -/
theorem C5_counterexample :
    (model_rankings c5Items).map ModelRanking.model_name = ["ModelA", "ModelB"] ∧
    complianceScore c5Items "ModelA" < complianceScore c5Items "ModelB" := by
  with_unfolding_all decide

/-- Claim C5 as amended: `model_rankings` is sorted in descending order of
the rounded one-decimal compliance_score — dashboard.py line 42 rounds
before the sort of line 50, so the sort key is the rounded value, not the
full-precision one — and entries with equal rounded compliance_score keep
the order of the pre-sort list, whose models are in order of their first
appearance in audit_results. -/
theorem C5_rankings_sorted_by_rounded_key (items : List AuditItem) :
    (model_rankings items).Pairwise
      (fun a b => b.compliance_score ≤ a.compliance_score) ∧
    (∀ q : ℚ, (model_rankings items).filter (fun e => decide (e.compliance_score = q)) =
      (preRankings items).filter (fun e => decide (e.compliance_score = q))) ∧
    (preRankings items).map ModelRanking.model_name = firstAppearanceModels items := by
  refine ⟨sortRanked_pairwise _, fun q => filter_sortRanked _ q, ?_⟩
  simp only [preRankings, List.map_map]
  show List.map (fun m => m) (firstAppearanceModels items) = firstAppearanceModels items
  simp

/-- Witness for the amended C5 at a concrete input and concrete key. -/
theorem C5_rankings_sorted_by_rounded_key_witness :
    (model_rankings [itemOf "ModelA" Status.PASS]).filter
        (fun e => decide (e.compliance_score = 100)) =
      (preRankings [itemOf "ModelA" Status.PASS]).filter
        (fun e => decide (e.compliance_score = 100)) :=
  (C5_rankings_sorted_by_rounded_key [itemOf "ModelA" Status.PASS]).2.1 100

end PolicySentinel
